import Mathlib

/-!
Verification of the flowPy pressure-drop network library.

Shallow embedding of `src/flowpy/flow_network_components.py`,
`src/flowpy/network_builder.py`, `src/flowpy/pdrop_funcs.py` and
`src/flowpy/loss_utils.py`.

Modelling conventions:
* Python floats are modelled as exact rationals (`ℚ`); `math.pi` is the
  double-precision constant `3.141592653589793` the code evaluates with.
* A Python function that can raise is modelled as `Except PyErr _`; the
  error constructors mirror the Python exception classes that the code
  raises (`ValueError`, `ZeroDivisionError`, `KeyError`, `IndexError`,
  `TypeError`, `AttributeError`).  Division raises `ZeroDivisionError`
  exactly when the denominator is zero, as in Python.
* YAML scalars/strings/function-call mappings appearing as `geom`/`loss`
  entry values are modelled by the inductive `Val`; a descriptor's absent
  `geom`/`loss` mapping is modelled as the empty association list.
* Python dicts holding materialized values are association lists in
  insertion order; `alookup` is dict indexing.
-/

namespace FlowPy

/-- Python exception kinds raised by the embedded code. -/
inductive PyErr where
  | valueError (msg : String)
  | zeroDivisionError
  | keyError (msg : String)
  | indexError (msg : String)
  | typeError (msg : String)
  | attributeError (msg : String)
deriving DecidableEq

/-- A YAML-ish value as it appears inside a descriptor `geom`/`loss` map or
inside a function-call `params` map: a number, a string, or a nested
`{func: ..., params: ...}` mapping. -/
inductive Val where
  | num (q : ℚ)
  | str (s : String)
  | dict (func : String) (params : List (String × Val))

/-- Dict indexing on an insertion-ordered association list. -/
def alookup (m : List (String × Val)) (k : String) : Option Val :=
  (m.find? (fun kv => kv.1 = k)).map (fun kv => kv.2)

/-- Value of `math.pi` as evaluated in double precision by the source. -/
def PI : ℚ := 3.141592653589793

/-- Class variable `Pipe.GRAVITY` (m/s^2). -/
def GRAVITY : ℚ := 9.80665

/-- Dataclass `Inlet`. -/
structure Inlet where
  name : String
  outlet_pressure : ℚ
  mass_flow_rate : ℚ
  density : ℚ
  temperature : ℚ
deriving DecidableEq

/-- Input fields of the `Junction` dataclass.  The `upstream` field models
`getattr(self.upstream, "outlet_pressure", None)`: `none` when the upstream
object has no outlet pressure set. -/
structure Junction where
  name : String
  ref_area : ℚ
  form_loss : ℚ
  mass_flow_rate : ℚ
  density : ℚ
  upstream : Option ℚ
deriving DecidableEq

/-- Fields computed by `Junction.compute`. -/
structure JunctionComputed where
  ref_velocity : ℚ
  dp_loss : ℚ
  pressure_drop : ℚ
  inlet_pressure : ℚ
  outlet_pressure : ℚ
deriving DecidableEq

/-- Error message used by `Junction.compute`. -/
def junctionUpstreamMsg : String :=
  "upstream.outlet_pressure must be set before constructing Junction."

/-- Model of `Junction.compute`: the upstream check, then the reference velocity
(raising `ZeroDivisionError` when `density * ref_area == 0`), the form
loss, and the endpoint pressures. -/
def Junction.compute (j : Junction) : Except PyErr JunctionComputed :=
  match j.upstream with
  | none => .error (.valueError junctionUpstreamMsg)
  | some up =>
    if j.density * j.ref_area = 0 then .error .zeroDivisionError
    else
      let ref_velocity := j.mass_flow_rate / (j.density * j.ref_area)
      let dp_loss := j.form_loss * 0.5 * j.density * ref_velocity ^ 2
      let pressure_drop := dp_loss
      .ok ⟨ref_velocity, dp_loss, pressure_drop, up, up - pressure_drop⟩

/-- Input fields of the `Pipe` dataclass, in source order.  `upstream`
models `getattr(self.upstream, "outlet_pressure", None)`; `flow_direction`
is kept as a raw `Val` because the builder passes through whatever the
specification held. -/
structure Pipe where
  name : String
  length : ℚ
  hydraulic_diameter : ℚ
  friction_factor : ℚ
  mass_flow_rate : ℚ
  density : ℚ
  inlet_area : ℚ
  outlet_area : ℚ
  upstream : Option ℚ
  ref_area : ℚ
  flow_direction : Val
  alpha1 : ℚ
  alpha2 : ℚ

/-- Fields computed by `Pipe.compute`. -/
structure PipeComputed where
  inlet_velocity : ℚ
  outlet_velocity : ℚ
  ref_velocity : ℚ
  dp_loss : ℚ
  dp_gravity : ℚ
  dp_accel : ℚ
  pressure_drop : ℚ
  inlet_pressure : ℚ
  outlet_pressure : ℚ
deriving DecidableEq

/-- Error message used by `Pipe.compute` on an unset upstream pressure. -/
def pipeUpstreamMsg : String :=
  "the outlet_pressure must be set before constructing Pipe."

/-- Error message of the `flow_direction` `ValueError`. -/
def flowDirMsg : String :=
  "flow_direction must be up, down, or side"

/-- Model of Python `str.strip()`: drop whitespace characters from both
ends (structurally recursive so that it evaluates on literals). -/
def pystrip (s : String) : String :=
  ⟨(((s.data.dropWhile Char.isWhitespace).reverse.dropWhile
      Char.isWhitespace).reverse)⟩

/-- Model of Python `str.lower()`: lowercase every character. -/
def pylower (s : String) : String :=
  ⟨s.data.map Char.toLower⟩

/-- The hydrostatic sign block of `Pipe.compute`:
`dir_key = flow_direction.strip().lower()` then the `up`/`down`/`side`
dispatch, raising `ValueError` otherwise.  A non-string value raises
`AttributeError` at `.strip()`, as in Python. -/
def flowSign (v : Val) : Except PyErr ℚ :=
  match v with
  | .str s =>
    let dir_key := pylower (pystrip s)
    if dir_key = "up" then .ok 1
    else if dir_key = "down" then .ok (-1)
    else if dir_key = "side" then .ok 0
    else .error (.valueError flowDirMsg)
  | _ => .error (.attributeError "strip")

/-- Model of `Pipe.compute`, with the source's raising order: upstream check, inlet
velocity, outlet velocity, reference velocity, friction term (dividing by
`hydraulic_diameter`), flow-direction dispatch, then the remaining pure
arithmetic. -/
def Pipe.compute (p : Pipe) : Except PyErr PipeComputed :=
  match p.upstream with
  | none => .error (.valueError pipeUpstreamMsg)
  | some up =>
    if p.density * p.inlet_area = 0 then .error .zeroDivisionError
    else if p.density * p.outlet_area = 0 then .error .zeroDivisionError
    else if p.density * p.ref_area = 0 then .error .zeroDivisionError
    else if p.hydraulic_diameter = 0 then .error .zeroDivisionError
    else
      match flowSign p.flow_direction with
      | .error e => .error e
      | .ok sgn =>
        let inlet_velocity := p.mass_flow_rate / (p.density * p.inlet_area)
        let outlet_velocity := p.mass_flow_rate / (p.density * p.outlet_area)
        let ref_velocity := p.mass_flow_rate / (p.density * p.ref_area)
        let q_ref := 0.5 * p.density * ref_velocity ^ 2
        let dp_loss := p.friction_factor * (p.length / p.hydraulic_diameter) * q_ref
        let dp_gravity := p.density * GRAVITY * p.length * sgn
        let dp_accel :=
          0.5 * p.density *
            (p.alpha2 * outlet_velocity ^ 2 - p.alpha1 * inlet_velocity ^ 2)
        let pressure_drop := dp_loss + dp_gravity + dp_accel
        .ok ⟨inlet_velocity, outlet_velocity, ref_velocity, dp_loss, dp_gravity,
          dp_accel, pressure_drop, up, up - pressure_drop⟩

/-! Geometry library (`pdrop_funcs.py`). -/

/-- Model of `area_circle`: validates `D < 0` then returns `math.pi * D**2 / 4.0`. -/
def area_circle (D : ℚ) : Except PyErr ℚ :=
  if D < 0 then .error (.valueError "D must be non-negative.")
  else .ok (PI * D ^ 2 / 4)

/-- Model of `area_rectangle`: validates negativity then returns `L * w`. -/
def area_rectangle (L w : ℚ) : Except PyErr ℚ :=
  if L < 0 ∨ w < 0 then .error (.valueError "L and w must be non-negative.")
  else .ok (L * w)

/-- Model of `area_capsule_slot`: validates negativity then sums
`area_rectangle(L, b) + area_circle(b)`. -/
def area_capsule_slot (b L : ℚ) : Except PyErr ℚ :=
  if b < 0 ∨ L < 0 then .error (.valueError "b and L must be non-negative.")
  else
    match area_rectangle L b, area_circle b with
    | .ok r, .ok c => .ok (r + c)
    | .error e, _ => .error e
    | _, .error e => .error e

/-- Model of `area_annulus`: no validation in the source; always returns
`math.pi * (D_outer**2 - D_inner**2) / 4.0`. -/
def area_annulus (D_outer D_inner : ℚ) : Except PyErr ℚ :=
  .ok (PI * (D_outer ^ 2 - D_inner ^ 2) / 4)

/-- The function registered in `GEOM_REGISTRY` under the key
`hydraulic_diameter_annulus`: its body returns
`math.pi * (D_outer + D_inner)` (its own docstring calls this the wetted
perimeter of the annulus). -/
def hydraulic_diameter_annulus (D_outer D_inner : ℚ) : ℚ :=
  PI * (D_outer + D_inner)

/-- Function `hydraulic_diameter_annulus_concentric` (not registered):
`D_outer - D_inner`. -/
def hydraulic_diameter_annulus_concentric (D_outer D_inner : ℚ) : ℚ :=
  D_outer - D_inner

/-- Model of `hydraulic_diameter_circle`: the identity. -/
def hydraulic_diameter_circle (D : ℚ) : ℚ := D

/-! Loss-coefficient library (`loss_utils.py`), the parts the claims
exercise. -/

/-- Model of `sudden_expansion`: no validation in the source; returns
`(1 - inlet_area / outlet_area) ** 2`, raising `ZeroDivisionError` when
`outlet_area == 0`. -/
def sudden_expansion (inlet_area outlet_area : ℚ) : Except PyErr ℚ :=
  if outlet_area = 0 then .error .zeroDivisionError
  else .ok ((1 - inlet_area / outlet_area) ^ 2)

/-- Model of `free_discharge`: constant `1.0`. -/
def free_discharge : Except PyErr ℚ := .ok 1

/-! Network builder (`network_builder.py`). -/

/-- A name-indexed registry of loss/geometry functions taking keyword
arguments; the builder is parameterised over the two registries (their
entries all return Python floats).  `none` models a `KeyError` on
`registry[fn_name]`. -/
abbrev Registry := String → Option (List (String × Val) → Except PyErr ℚ)

/-- An inlet descriptor's `flow` sub-object. -/
structure FlowSpec where
  pressure : ℚ
  mass_flow_rate : ℚ
  density : ℚ
  temperature : ℚ
deriving DecidableEq

/-- A descriptor's `ref_area` sub-object: `station` names a `geom` key;
`flow_splits` defaults to 1 via `.get("flow_splits", 1)`. -/
structure RefAreaSpec where
  station : String
  flow_splits : Option ℚ
deriving DecidableEq

/-- One element descriptor of the `network` list.  `flow` is present only
on inlet descriptors (`none` models a missing key); an absent `geom`/`loss`
mapping is modelled as the empty list. -/
structure Desc where
  type_ : String
  name : String
  flow : Option FlowSpec
  geom : List (String × Val)
  loss : List (String × Val)
  ref_area : Option RefAreaSpec

/-- The whole input specification: top-level `name` and `network`. -/
structure Inputs where
  name : String
  network : List Desc

/-- A built network element (`network_list` entry).  Interior elements keep
both their constructor inputs and their computed fields. -/
inductive Element where
  | inlet (i : Inlet)
  | outlet (name : String)
  | pipe (p : Pipe) (c : PipeComputed)
  | junction (j : Junction) (c : JunctionComputed)

/-- Dataclass `Network`: name plus the ordered element list. -/
structure Network where
  name : String
  network_list : List Element

/-- Reading `getattr(element, "outlet_pressure", None)`: an `Outlet` has no
such attribute. -/
def Element.outlet_pressure : Element → Option ℚ
  | .inlet i => some i.outlet_pressure
  | .outlet _ => none
  | .pipe _ c => some c.outlet_pressure
  | .junction _ c => some c.outlet_pressure

/-- Reading `getattr(element, "inlet_pressure", None)`: only Pipes and
Junctions carry one. -/
def Element.inlet_pressure : Element → Option ℚ
  | .inlet _ => none
  | .outlet _ => none
  | .pipe _ c => some c.inlet_pressure
  | .junction _ c => some c.inlet_pressure

/-- Whether an element is an interior (Pipe or Junction) node. -/
def Element.isInterior : Element → Bool
  | .pipe _ _ => true
  | .junction _ _ => true
  | _ => false

/-- Does a parameter value have the `${<spec_type>.<key>}` reference shape
(`v.startswith(prefix) and v.endswith("}")`); if so extract the key
`v[len(prefix):-1]`.  Implemented over character lists so that it reduces
structurally (Python string slicing is character-based and the marker is
ASCII, so the two agree). -/
def refKey (spec_type : String) (v : Val) : Option String :=
  match v with
  | .str s =>
    let pfx := "$\x7b" ++ spec_type ++ "."
    if s.data.take pfx.data.length = pfx.data ∧ s.data.getLast? = some '\x7d' then
      some ⟨(s.data.drop pfx.data.length).dropLast⟩
    else none
  | _ => none

/-- The raw text of a reference token (used in the `KeyError` message). -/
def Val.text : Val → String
  | .str s => s
  | .num _ => ""
  | .dict _ _ => ""

/-- Model of `resolve_refs`: substitute `${<spec_type>.<key>}` strings in
`func_kwargs` using the materialized map; non-matching values are left
unchanged; an unknown key raises `KeyError` naming the reference. -/
def resolve_refs (func_kwargs : List (String × Val))
    (materialized : List (String × Val)) (spec_type : String) :
    Except PyErr (List (String × Val)) :=
  match func_kwargs with
  | [] => .ok []
  | (k, v) :: rest =>
    match refKey spec_type v with
    | some key =>
      match alookup materialized key with
      | none =>
        .error (.keyError ("Unknown " ++ spec_type ++ " reference: " ++ v.text))
      | some w =>
        match resolve_refs rest materialized spec_type with
        | .error e => .error e
        | .ok out => .ok ((k, w) :: out)
    | none =>
      match resolve_refs rest materialized spec_type with
      | .error e => .error e
      | .ok out => .ok ((k, v) :: out)

/-- Materialize one `geom`/`loss` entry: numbers (and anything under the
`flow_direction` key) pass through; `{func, params}` mappings resolve loss
parameters against the finished `geom` map (`resolveWith = some geomM`),
look the function up in the registry, and call it; any other shape raises
`TypeError`. -/
def mat_one (reg : Registry) (resolveWith : Option (List (String × Val)))
    (key : String) (spec : Val) : Except PyErr Val :=
  match spec with
  | .num q => .ok (.num q)
  | .str s =>
    if key = "flow_direction" then .ok (.str s)
    else .error (.typeError ("Unsupported spec for " ++ key))
  | .dict fn params =>
    if key = "flow_direction" then .ok (.dict fn params)
    else
      (match resolveWith with
        | none => .ok params
        | some geomM => resolve_refs params geomM "geom") >>= fun kwargs =>
      match reg fn with
      | none => .error (.keyError fn)
      | some f => (f kwargs).map Val.num

/-- Materialize a whole `geom` or `loss` sub-map in insertion order,
accumulating into `acc`; stops at the first raising entry. -/
def mat_pass (reg : Registry) (resolveWith : Option (List (String × Val)))
    (acc : List (String × Val)) :
    List (String × Val) → Except PyErr (List (String × Val))
  | [] => .ok acc
  | (key, spec) :: rest =>
    match mat_one reg resolveWith key spec with
    | .error e => .error e
    | .ok v => mat_pass reg resolveWith (acc ++ [(key, v)]) rest

/-- Access of `sample_case["ref_area"]`: `KeyError` when absent. -/
def getRefArea (d : Desc) : Except PyErr RefAreaSpec :=
  match d.ref_area with
  | none => .error (.keyError "ref_area")
  | some ra => .ok ra

/-- Indexing `materialized["geom"][station]`-style: `KeyError` when the key
is absent. -/
def getKey (m : List (String × Val)) (k : String) : Except PyErr Val :=
  match alookup m k with
  | none => .error (.keyError k)
  | some v => .ok v

/-- Indexing that additionally feeds the value into float arithmetic; a
non-numeric value is a `TypeError` (in Python it surfaces as a `TypeError`
inside the subsequent arithmetic). -/
def getNum (m : List (String × Val)) (k : String) : Except PyErr ℚ :=
  getKey m k >>= fun v =>
    match v with
    | .num q => .ok q
    | _ => .error (.typeError k)

/-- Extraction of a numeric value already in hand (the `ref_area` station
value), with the same `TypeError` convention. -/
def asNum (v : Val) : Except PyErr ℚ :=
  match v with
  | .num q => .ok q
  | _ => .error (.typeError "ref_area")

/-- Reading `inlet_plenum.mass_flow_rate` on a still-unset plenum:
`AttributeError` on `None`. -/
def getPlenum (pl : Option Inlet) : Except PyErr Inlet :=
  match pl with
  | none => .error (.attributeError "NoneType object has no attribute")
  | some ip => .ok ip

/-- Reading `network_list[-1]` on the running list: `IndexError` when empty. -/
def getLastEl (lastOpt : Option Element) : Except PyErr Element :=
  match lastOpt with
  | none => .error (.indexError "list index out of range")
  | some e => .ok e

/-- Python float division: `ZeroDivisionError` on a zero denominator. -/
def pydiv (a b : ℚ) : Except PyErr ℚ :=
  if b = 0 then .error .zeroDivisionError else .ok (a / b)

/-- The builder's `else` branch for one pipe/junction descriptor:
materialize `geom` then `loss` (loss parameters resolved against the
finished `geom` map), read the reference area station, then construct the
`Pipe` or `Junction` with the argument-evaluation order of the source
(`inlet_plenum` attributes before `upstream = network_list[-1]`). -/
def build_component (geomReg lossReg : Registry) (d : Desc)
    (pl : Option Inlet) (lastOpt : Option Element) : Except PyErr Element :=
  mat_pass geomReg none [] d.geom >>= fun geomM =>
  mat_pass lossReg (some geomM) [] d.loss >>= fun lossM =>
  getRefArea d >>= fun ra =>
  getKey geomM ra.station >>= fun raVal =>
  if d.type_ = "pipe" then
    getNum geomM "length" >>= fun len =>
    getKey geomM "flow_direction" >>= fun fdir =>
    getNum geomM "hydraulic_diameter" >>= fun hd =>
    getNum lossM "friction" >>= fun fric =>
    getPlenum pl >>= fun ip =>
    getNum geomM "inlet_area" >>= fun inA =>
    getNum geomM "outlet_area" >>= fun outA =>
    asNum raVal >>= fun raQ =>
    getLastEl lastOpt >>= fun upEl =>
    let pin : Pipe :=
      ⟨d.name, len, hd, fric, ip.mass_flow_rate, ip.density, inA, outA,
        upEl.outlet_pressure, raQ, fdir, 1, 1⟩
    Pipe.compute pin >>= fun pc => .ok (.pipe pin pc)
  else
    getPlenum pl >>= fun ip =>
    pydiv ip.mass_flow_rate (ra.flow_splits.getD 1) >>= fun mfr =>
    getNum lossM "form" >>= fun form =>
    asNum raVal >>= fun raQ =>
    getLastEl lastOpt >>= fun upEl =>
    let jin : Junction :=
      ⟨d.name, raQ, form, mfr, ip.density, upEl.outlet_pressure⟩
    Junction.compute jin >>= fun jc => .ok (.junction jin jc)

/-- The builder loop over descriptors.  `n` is the length of the full
`network` list (the outlet-position check compares against it), `idx` the
running index, `acc` the `network_list` built so far, `pl` the
`inlet_plenum` variable.  An outlet descriptor in the accepted position
`break`s out of the loop. -/
def build_go (geomReg lossReg : Registry) (n : Nat) :
    Nat → List Desc → List Element → Option Inlet →
    Except PyErr (List Element)
  | _, [], acc, _ => .ok acc
  | idx, d :: rest, acc, pl =>
    if d.type_ = "inlet" then
      if idx ≠ 0 then
        .error (.indexError ("Inlet node should be first, currently " ++ toString idx))
      else
        match d.flow with
        | none => .error (.keyError "flow")
        | some f =>
          let ip : Inlet := ⟨d.name, f.pressure, f.mass_flow_rate, f.density, f.temperature⟩
          build_go geomReg lossReg n (idx + 1) rest (acc ++ [Element.inlet ip]) (some ip)
    else if d.type_ = "outlet" then
      if idx ≠ n - 1 then
        .error (.indexError ("Outlet node should be last, currently " ++ toString idx))
      else
        match acc.getLast? with
        | none => .error (.indexError "list index out of range")
        | some _ => .ok (acc ++ [Element.outlet d.name])
    else
      match build_component geomReg lossReg d pl acc.getLast? with
      | .error e => .error e
      | .ok el => build_go geomReg lossReg n (idx + 1) rest (acc ++ [el]) pl

/-- Model of `build_network`: run the loop and wrap the result in a `Network`. -/
def build_network (geomReg lossReg : Registry) (inputs : Inputs) :
    Except PyErr Network :=
  (build_go geomReg lossReg inputs.network.length 0 inputs.network [] none).map
    (fun l => ⟨inputs.name, l⟩)

/-! Specification-side predicates and concrete sample data used by the
theorems and their witnesses. -/

/-- Specification of a single `resolve_refs` substitution: a reference is
replaced by the materialized `geom` value, everything else is unchanged. -/
def substVal (materialized : List (String × Val)) (spec_type : String)
    (v : Val) : Val :=
  match refKey spec_type v with
  | none => v
  | some key => (alookup materialized key).getD v

/-- Chain invariant: every interior element's inlet pressure equals the
outlet pressure of the element immediately before it. -/
def chainAt (l : List Element) : Prop :=
  ∀ (i : Nat) (e1 e2 : Element), l[i + 1]? = some e1 → l[i]? = some e2 →
    e1.isInterior = true → e1.inlet_pressure = e2.outlet_pressure

/-- Registry with no entries (registries are irrelevant to specifications
whose entries are all scalar). -/
def emptyRegistry : Registry := fun _ => none

/-- Sample inlet descriptor: 100 Pa, 2 kg/s, density 1, 300 K. -/
def sampleInletDesc : Desc :=
  ⟨"inlet", "source", some ⟨100, 2, 1, 300⟩, [], [], none⟩

/-- Sample junction descriptor with scalar geometry and form loss. -/
def sampleJunctionDesc : Desc :=
  ⟨"junction", "j1", none, [("a", .num 1)], [("form", .num 1)], some ⟨"a", none⟩⟩

/-- Sample outlet descriptor. -/
def sampleOutletDesc : Desc :=
  ⟨"outlet", "sink", none, [], [], none⟩

/-- Sample three-element specification: inlet, junction, outlet. -/
def sampleInputs : Inputs :=
  ⟨"net", [sampleInletDesc, sampleJunctionDesc, sampleOutletDesc]⟩

/-- The network the builder produces from `sampleInputs`: reference
velocity 2/(1*1) = 2, form loss drop 1*0.5*1*2^2 = 2, outlet pressure
100 - 2 = 98. -/
def sampleNet : Network :=
  ⟨"net",
    [Element.inlet ⟨"source", 100, 2, 1, 300⟩,
     Element.junction ⟨"j1", 1, 1, 2, 1, some 100⟩ ⟨2, 2, 2, 100, 98⟩,
     Element.outlet "sink"]⟩

/-- Specification whose first descriptor is a (well-formed) junction; the
claimed structural-order failure does not happen on it. -/
def junctionFirstInputs : Inputs :=
  ⟨"net", [sampleJunctionDesc]⟩

/-- A pipe with every input valid except `hydraulic_diameter = 0`. -/
def zeroHDPipe : Pipe :=
  ⟨"p0", 1, 0, 1, 1, 1, 1, 1, some 100, 1, .str "up", 1, 1⟩

/-- A pipe with all denominators nonzero and direction `side`. -/
def samplePipe : Pipe :=
  ⟨"p1", 1, 1, 1, 2, 1, 1, 1, some 100, 1, .str "side", 1, 1⟩

/-- A pipe whose direction string needs trimming and lowercasing. -/
def upPipe : Pipe :=
  ⟨"p2", 1, 1, 1, 1, 1, 1, 1, some 10, 1, .str "UP ", 1, 1⟩

/-- A pipe whose upstream outlet pressure is unset and whose other inputs
would raise if any arithmetic were attempted. -/
def noUpstreamPipe : Pipe :=
  ⟨"p3", 1, 0, 1, 1, 0, 0, 0, none, 0, .str "bogus", 1, 1⟩

/-- A junction whose upstream outlet pressure is unset. -/
def noUpstreamJunction : Junction :=
  ⟨"j3", 0, 1, 1, 0, none⟩

/-- A junction with zero density (so `density * ref_area = 0`). -/
def zeroDensityJunction : Junction :=
  ⟨"j4", 1, 1, 1, 0, some 5⟩

/-- A junction with ordinary inputs. -/
def sampleJunction : Junction :=
  ⟨"j5", 2, 3, 4, 1, some 50⟩

/-! Helper lemmas about `Except` binds. -/

theorem ebind_ok {α β : Type} {x : Except PyErr α} {f : α → Except PyErr β}
    {b : β} : (x >>= f) = Except.ok b ↔ ∃ a, x = Except.ok a ∧ f a = Except.ok b := by
  cases x <;> simp [Bind.bind, Except.bind]

theorem ok_bind {α β : Type} (a : α) (f : α → Except PyErr β) :
    ((Except.ok a : Except PyErr α) >>= f) = f a := rfl

theorem error_bind {α β : Type} (e : PyErr) (f : α → Except PyErr β) :
    ((Except.error e : Except PyErr α) >>= f) = Except.error e := rfl

/-- C2: for every Pipe with upstream pressure set, a valid flow direction,
and nonzero division denominators, the computed fields satisfy exactly the
velocity, Darcy–Weisbach, hydrostatic, acceleration, total-drop, and
endpoint-pressure formulas of the claim. -/
theorem c2_pipe_compute_formulas (p : Pipe) (up sgn : ℚ)
    (hup : p.upstream = some up)
    (hdir : flowSign p.flow_direction = Except.ok sgn)
    (h1 : p.density * p.inlet_area ≠ 0)
    (h2 : p.density * p.outlet_area ≠ 0)
    (h3 : p.density * p.ref_area ≠ 0)
    (h4 : p.hydraulic_diameter ≠ 0) :
    ∃ c, Pipe.compute p = Except.ok c ∧
      c.inlet_velocity = p.mass_flow_rate / (p.density * p.inlet_area) ∧
      c.outlet_velocity = p.mass_flow_rate / (p.density * p.outlet_area) ∧
      c.ref_velocity = p.mass_flow_rate / (p.density * p.ref_area) ∧
      c.dp_loss = p.friction_factor * (p.length / p.hydraulic_diameter) *
        0.5 * p.density * c.ref_velocity ^ 2 ∧
      c.dp_gravity = p.density * 9.80665 * p.length * sgn ∧
      c.dp_accel = 0.5 * p.density *
        (p.alpha2 * c.outlet_velocity ^ 2 - p.alpha1 * c.inlet_velocity ^ 2) ∧
      c.pressure_drop = c.dp_loss + c.dp_gravity + c.dp_accel ∧
      c.inlet_pressure = up ∧
      c.outlet_pressure = c.inlet_pressure - c.pressure_drop := by
  simp only [Pipe.compute, hup, if_neg h1, if_neg h2, if_neg h3, if_neg h4, hdir]
  exact ⟨_, rfl, rfl, rfl, rfl, by ring, rfl, rfl, rfl, rfl, rfl⟩

/-- Witness for C2 at `samplePipe` (direction `side`, hence sign 0). -/
theorem c2_witness :
    ∃ c, Pipe.compute samplePipe = Except.ok c ∧
      c.inlet_velocity = samplePipe.mass_flow_rate / (samplePipe.density * samplePipe.inlet_area) ∧
      c.outlet_velocity = samplePipe.mass_flow_rate / (samplePipe.density * samplePipe.outlet_area) ∧
      c.ref_velocity = samplePipe.mass_flow_rate / (samplePipe.density * samplePipe.ref_area) ∧
      c.dp_loss = samplePipe.friction_factor * (samplePipe.length / samplePipe.hydraulic_diameter) *
        0.5 * samplePipe.density * c.ref_velocity ^ 2 ∧
      c.dp_gravity = samplePipe.density * 9.80665 * samplePipe.length * 0 ∧
      c.dp_accel = 0.5 * samplePipe.density *
        (samplePipe.alpha2 * c.outlet_velocity ^ 2 - samplePipe.alpha1 * c.inlet_velocity ^ 2) ∧
      c.pressure_drop = c.dp_loss + c.dp_gravity + c.dp_accel ∧
      c.inlet_pressure = 100 ∧
      c.outlet_pressure = c.inlet_pressure - c.pressure_drop :=
  c2_pipe_compute_formulas samplePipe 100 0 rfl rfl (by norm_num [samplePipe])
    (by norm_num [samplePipe]) (by norm_num [samplePipe]) (by norm_num [samplePipe])

/-- C3: for every Junction with upstream pressure set and nonzero
`density * ref_area`, the computed fields satisfy the reference-velocity,
form-loss, and endpoint-pressure formulas of the claim. -/
theorem c3_junction_compute_formulas (j : Junction) (up : ℚ)
    (hup : j.upstream = some up)
    (h : j.density * j.ref_area ≠ 0) :
    ∃ c, Junction.compute j = Except.ok c ∧
      c.ref_velocity = j.mass_flow_rate / (j.density * j.ref_area) ∧
      c.dp_loss = j.form_loss * 0.5 * j.density * c.ref_velocity ^ 2 ∧
      c.pressure_drop = c.dp_loss ∧
      c.inlet_pressure = up ∧
      c.outlet_pressure = c.inlet_pressure -
        j.form_loss * 0.5 * j.density * c.ref_velocity ^ 2 := by
  simp only [Junction.compute, hup, if_neg h]
  exact ⟨_, rfl, rfl, rfl, rfl, rfl, rfl⟩

/-- Witness for C3 at `sampleJunction`. -/
theorem c3_witness :
    ∃ c, Junction.compute sampleJunction = Except.ok c ∧
      c.ref_velocity = sampleJunction.mass_flow_rate / (sampleJunction.density * sampleJunction.ref_area) ∧
      c.dp_loss = sampleJunction.form_loss * 0.5 * sampleJunction.density * c.ref_velocity ^ 2 ∧
      c.pressure_drop = c.dp_loss ∧
      c.inlet_pressure = 50 ∧
      c.outlet_pressure = c.inlet_pressure -
        sampleJunction.form_loss * 0.5 * sampleJunction.density * c.ref_velocity ^ 2 :=
  c3_junction_compute_formulas sampleJunction 50 rfl (by norm_num [sampleJunction])

/-- C8: constructing a Pipe or Junction with the upstream outlet pressure
unset fails with the precondition `ValueError`, whatever the other inputs
are — in particular before any arithmetic (even inputs that would raise
`ZeroDivisionError` still produce the `ValueError`). -/
theorem c8_upstream_unset_valueerror :
    (∀ p : Pipe, p.upstream = none →
      Pipe.compute p = Except.error (.valueError pipeUpstreamMsg)) ∧
    (∀ j : Junction, j.upstream = none →
      Junction.compute j = Except.error (.valueError junctionUpstreamMsg)) := by
  constructor
  · intro p h
    unfold Pipe.compute
    rw [h]
  · intro j h
    unfold Junction.compute
    rw [h]

/-- Witness for C8: `noUpstreamPipe` and `noUpstreamJunction` have zero
denominators and (for the Pipe) an invalid direction, yet the error is the
upstream `ValueError`. -/
theorem c8_witness :
    Pipe.compute noUpstreamPipe = Except.error (.valueError pipeUpstreamMsg) ∧
    Junction.compute noUpstreamJunction = Except.error (.valueError junctionUpstreamMsg) :=
  ⟨c8_upstream_unset_valueerror.1 noUpstreamPipe rfl,
   c8_upstream_unset_valueerror.2 noUpstreamJunction rfl⟩

/-- C9: the flow-direction string is normalized case- and surrounding-
whitespace-insensitively; `up`, `down`, `side` give hydrostatic signs
+1, -1, 0 in `dp_gravity`, and any other normalized string fails with the
invalid-argument `ValueError` (provided construction reaches the direction
check, i.e. the velocity divisions succeed). -/
theorem c9_flow_direction_normalization (p : Pipe) (s : String) (up : ℚ)
    (hs : p.flow_direction = Val.str s)
    (hup : p.upstream = some up)
    (h1 : p.density * p.inlet_area ≠ 0)
    (h2 : p.density * p.outlet_area ≠ 0)
    (h3 : p.density * p.ref_area ≠ 0)
    (h4 : p.hydraulic_diameter ≠ 0) :
    (pylower (pystrip s) = "up" → ∃ c, Pipe.compute p = Except.ok c ∧
      c.dp_gravity = p.density * GRAVITY * p.length * 1) ∧
    (pylower (pystrip s) = "down" → ∃ c, Pipe.compute p = Except.ok c ∧
      c.dp_gravity = p.density * GRAVITY * p.length * (-1)) ∧
    (pylower (pystrip s) = "side" → ∃ c, Pipe.compute p = Except.ok c ∧
      c.dp_gravity = p.density * GRAVITY * p.length * 0) ∧
    (pylower (pystrip s) ≠ "up" → pylower (pystrip s) ≠ "down" →
     pylower (pystrip s) ≠ "side" →
      Pipe.compute p = Except.error (.valueError flowDirMsg)) := by
  refine ⟨?_, ?_, ?_, ?_⟩
  · intro h
    have hfs : flowSign p.flow_direction = Except.ok 1 := by
      simp [flowSign, hs, h]
    simp only [Pipe.compute, hup, if_neg h1, if_neg h2, if_neg h3, if_neg h4, hfs]
    exact ⟨_, rfl, rfl⟩
  · intro h
    have hfs : flowSign p.flow_direction = Except.ok (-1) := by
      simp [flowSign, hs, h]
    simp only [Pipe.compute, hup, if_neg h1, if_neg h2, if_neg h3, if_neg h4, hfs]
    exact ⟨_, rfl, rfl⟩
  · intro h
    have hfs : flowSign p.flow_direction = Except.ok 0 := by
      simp [flowSign, hs, h]
    simp only [Pipe.compute, hup, if_neg h1, if_neg h2, if_neg h3, if_neg h4, hfs]
    exact ⟨_, rfl, rfl⟩
  · intro hu hd hside
    have hfs : flowSign p.flow_direction = Except.error (.valueError flowDirMsg) := by
      simp [flowSign, hs, hu, hd, hside]
    simp only [Pipe.compute, hup, if_neg h1, if_neg h2, if_neg h3, if_neg h4, hfs]

/-- Witness for C9 at the direction string `"UP "` (needs both stripping
and lowercasing). -/
theorem c9_witness :
    (pylower (pystrip "UP ") = "up" → ∃ c, Pipe.compute upPipe = Except.ok c ∧
      c.dp_gravity = upPipe.density * GRAVITY * upPipe.length * 1) ∧
    (pylower (pystrip "UP ") = "down" → ∃ c, Pipe.compute upPipe = Except.ok c ∧
      c.dp_gravity = upPipe.density * GRAVITY * upPipe.length * (-1)) ∧
    (pylower (pystrip "UP ") = "side" → ∃ c, Pipe.compute upPipe = Except.ok c ∧
      c.dp_gravity = upPipe.density * GRAVITY * upPipe.length * 0) ∧
    (pylower (pystrip "UP ") ≠ "up" → pylower (pystrip "UP ") ≠ "down" →
     pylower (pystrip "UP ") ≠ "side" →
      Pipe.compute upPipe = Except.error (.valueError flowDirMsg)) :=
  c9_flow_direction_normalization upPipe "UP " 10 rfl rfl
    (by norm_num [upPipe]) (by norm_num [upPipe]) (by norm_num [upPipe])
    (by norm_num [upPipe])

/-- C10 (amended): with the upstream pressure set and a valid direction
token, Pipe/Junction construction never fails with an invalid-argument
error whatever the numeric inputs: it succeeds, or fails with
`ZeroDivisionError` exactly when a division denominator
(`density * area`, or for Pipe also `hydraulic_diameter`) is zero. -/
theorem c10_no_numeric_validation :
    (∀ (p : Pipe) (up sgn : ℚ), p.upstream = some up →
      flowSign p.flow_direction = Except.ok sgn →
      ((∃ c, Pipe.compute p = Except.ok c) ∨
        Pipe.compute p = Except.error .zeroDivisionError) ∧
      (Pipe.compute p = Except.error .zeroDivisionError ↔
        (p.density * p.inlet_area = 0 ∨ p.density * p.outlet_area = 0 ∨
         p.density * p.ref_area = 0 ∨ p.hydraulic_diameter = 0))) ∧
    (∀ (j : Junction) (up : ℚ), j.upstream = some up →
      ((∃ c, Junction.compute j = Except.ok c) ∨
        Junction.compute j = Except.error .zeroDivisionError) ∧
      (Junction.compute j = Except.error .zeroDivisionError ↔
        j.density * j.ref_area = 0)) := by
  constructor
  · intro p up sgn hup hdir
    by_cases h1 : p.density * p.inlet_area = 0
    · have he : Pipe.compute p = Except.error .zeroDivisionError := by
        simp [Pipe.compute, hup, h1]
      exact ⟨Or.inr he, by simp [he, h1]⟩
    · by_cases h2 : p.density * p.outlet_area = 0
      · have he : Pipe.compute p = Except.error .zeroDivisionError := by
          simp [Pipe.compute, hup, h1, h2]
        exact ⟨Or.inr he, by simp [he, h2]⟩
      · by_cases h3 : p.density * p.ref_area = 0
        · have he : Pipe.compute p = Except.error .zeroDivisionError := by
            simp [Pipe.compute, hup, h1, h2, h3]
          exact ⟨Or.inr he, by simp [he, h3]⟩
        · by_cases h4 : p.hydraulic_diameter = 0
          · have he : Pipe.compute p = Except.error .zeroDivisionError := by
              simp [Pipe.compute, hup, h1, h2, h3, h4]
            exact ⟨Or.inr he, by simp [he, h4]⟩
          · have hok : ∃ c, Pipe.compute p = Except.ok c := by
              simp only [Pipe.compute, hup, if_neg h1, if_neg h2, if_neg h3,
                if_neg h4, hdir]
              exact ⟨_, rfl⟩
            obtain ⟨c, hc⟩ := hok
            refine ⟨Or.inl ⟨c, hc⟩, ?_⟩
            rw [hc]
            simp [h1, h2, h3, h4]
  · intro j up hup
    by_cases h : j.density * j.ref_area = 0
    · have he : Junction.compute j = Except.error .zeroDivisionError := by
        simp [Junction.compute, hup, h]
      exact ⟨Or.inr he, by simp [he, h]⟩
    · have hok : ∃ c, Junction.compute j = Except.ok c := by
        simp only [Junction.compute, hup, if_neg h]
        exact ⟨_, rfl⟩
      obtain ⟨c, hc⟩ := hok
      refine ⟨Or.inl ⟨c, hc⟩, ?_⟩
      rw [hc]
      simp [h]

/-- Counterexample to C10 as stated: `zeroHDPipe` has every
`density * area` product nonzero and a valid direction, yet construction
fails (with `ZeroDivisionError` from `length / hydraulic_diameter`), while
the claim allows a division failure only when some `density * area` is
zero. -/
theorem c10_counterexample :
    Pipe.compute zeroHDPipe = Except.error .zeroDivisionError ∧
    zeroHDPipe.density * zeroHDPipe.inlet_area ≠ 0 ∧
    zeroHDPipe.density * zeroHDPipe.outlet_area ≠ 0 ∧
    zeroHDPipe.density * zeroHDPipe.ref_area ≠ 0 ∧
    flowSign zeroHDPipe.flow_direction = Except.ok 1 := by
  refine ⟨?_, by norm_num [zeroHDPipe], by norm_num [zeroHDPipe],
    by norm_num [zeroHDPipe], ?_⟩
  · norm_num [Pipe.compute, zeroHDPipe]
  · rfl

/-- Witness for C10 at `zeroDensityJunction`. -/
theorem c10_witness :
    ((∃ c, Junction.compute zeroDensityJunction = Except.ok c) ∨
      Junction.compute zeroDensityJunction = Except.error .zeroDivisionError) ∧
    (Junction.compute zeroDensityJunction = Except.error .zeroDivisionError ↔
      zeroDensityJunction.density * zeroDensityJunction.ref_area = 0) :=
  c10_no_numeric_validation.2 zeroDensityJunction 5 rfl

/-- C4 (code bug): the function registered in `GEOM_REGISTRY` under
`hydraulic_diameter_annulus` evaluates at `D_outer = 2, D_inner = 1` to
`math.pi * (2 + 1)` — the annulus wetted perimeter — which differs from
the hydraulic diameter `D_outer - D_inner = 1` the claim (and the
unregistered `hydraulic_diameter_annulus_concentric`) prescribe. -/
theorem c4_registry_annulus_returns_wetted_perimeter :
    hydraulic_diameter_annulus 2 1 = PI * (2 + 1) ∧
    hydraulic_diameter_annulus 2 1 ≠ 2 - 1 ∧
    hydraulic_diameter_annulus_concentric 2 1 = 2 - 1 := by
  refine ⟨rfl, ?_, rfl⟩
  norm_num [hydraulic_diameter_annulus, PI]

/-- C6 (amended): `area_circle` and `area_capsule_slot` do validate
non-negativity, but `area_annulus` performs no validation at all (it
returns the signed area for any inputs, inverted ordering included) and
`sudden_expansion` performs no validation (any nonzero outlet area is
accepted; a zero outlet area raises `ZeroDivisionError`, not an
invalid-argument error). -/
theorem c6_validation_coverage :
    (∀ D : ℚ, D < 0 →
      area_circle D = Except.error (.valueError "D must be non-negative.")) ∧
    (∀ D : ℚ, 0 ≤ D → area_circle D = Except.ok (PI * D ^ 2 / 4)) ∧
    (∀ b L : ℚ, b < 0 ∨ L < 0 →
      area_capsule_slot b L = Except.error (.valueError "b and L must be non-negative.")) ∧
    (∀ D_outer D_inner : ℚ,
      area_annulus D_outer D_inner = Except.ok (PI * (D_outer ^ 2 - D_inner ^ 2) / 4)) ∧
    (∀ a b : ℚ, b ≠ 0 → sudden_expansion a b = Except.ok ((1 - a / b) ^ 2)) ∧
    (∀ a : ℚ, sudden_expansion a 0 = Except.error .zeroDivisionError) := by
  refine ⟨?_, ?_, ?_, ?_, ?_, ?_⟩
  · intro D h
    unfold area_circle
    rw [if_pos h]
  · intro D h
    unfold area_circle
    rw [if_neg (not_lt.mpr h)]
  · intro b L h
    unfold area_capsule_slot
    rw [if_pos h]
  · intro D_outer D_inner
    rfl
  · intro a b h
    unfold sudden_expansion
    rw [if_neg h]
  · intro a
    unfold sudden_expansion
    rw [if_pos rfl]

/-- Counterexample to C6 as stated: `area_annulus` with the inverted
ordering `D_outer = 1 < D_inner = 2` does not fail — it returns a negative
area — and `sudden_expansion` with the non-positive `inlet_area = -1`
does not fail either. -/
theorem c6_counterexample :
    area_annulus 1 2 = Except.ok (PI * ((1 : ℚ) ^ 2 - 2 ^ 2) / 4) ∧
    PI * ((1 : ℚ) ^ 2 - 2 ^ 2) / 4 < 0 ∧
    sudden_expansion (-1) 1 = Except.ok 4 := by
  refine ⟨rfl, ?_, ?_⟩
  · norm_num [PI]
  · norm_num [sudden_expansion]

/-- Witness for C6 at a negative circle diameter and a valid sudden
expansion. -/
theorem c6_witness :
    area_circle (-1) = Except.error (.valueError "D must be non-negative.") ∧
    sudden_expansion 3 2 = Except.ok ((1 - 3 / 2 : ℚ) ^ 2) :=
  ⟨c6_validation_coverage.1 (-1) (by norm_num),
   c6_validation_coverage.2.2.2.2.1 3 2 (by norm_num)⟩

/-- C7: (1) when every `geom` reference in a loss parameter map resolves,
`resolve_refs` substitutes each reference with the already-materialized
`geom` value and passes every non-reference value through unchanged;
(2) a reference to an absent `geom` key fails with a `KeyError` naming the
unresolved reference token; (3) a loss function-call entry is materialized
by first resolving its parameters against the `geom` map and only then
invoking the registry function; (4) in `build_component` the `geom` map is
fully materialized before the `loss` map is evaluated against it. -/
theorem c7_loss_reference_resolution :
    (∀ (kwargs materialized : List (String × Val)),
      (∀ k v key, (k, v) ∈ kwargs → refKey "geom" v = some key →
        (alookup materialized key).isSome) →
      resolve_refs kwargs materialized "geom" =
        Except.ok (kwargs.map (fun kv => (kv.1, substVal materialized "geom" kv.2)))) ∧
    (∀ (kwargs materialized : List (String × Val)),
      (∃ k v key, (k, v) ∈ kwargs ∧ refKey "geom" v = some key ∧
        alookup materialized key = none) →
      ∃ s key, resolve_refs kwargs materialized "geom" =
          Except.error (.keyError ("Unknown geom reference: " ++ s)) ∧
        (∃ k, (k, Val.str s) ∈ kwargs) ∧
        refKey "geom" (Val.str s) = some key ∧
        alookup materialized key = none) ∧
    (∀ (reg : Registry) (materialized : List (String × Val)) (key fn : String)
        (params : List (String × Val)), key ≠ "flow_direction" →
      mat_one reg (some materialized) key (.dict fn params) =
        resolve_refs params materialized "geom" >>= fun kwargs =>
          match reg fn with
          | none => Except.error (.keyError fn)
          | some f => (f kwargs).map Val.num) ∧
    (∀ (gr lr : Registry) (d : Desc) (pl : Option Inlet)
        (lastOpt : Option Element) (geomM : List (String × Val)) (e : PyErr),
      mat_pass gr none [] d.geom = Except.ok geomM →
      mat_pass lr (some geomM) [] d.loss = Except.error e →
      build_component gr lr d pl lastOpt = Except.error e) := by
  refine ⟨?_, ?_, ?_, ?_⟩
  · intro kwargs materialized
    induction kwargs with
    | nil => intro _; rfl
    | cons kv rest ih =>
      intro hres
      obtain ⟨k, v⟩ := kv
      have hrest := ih (fun k' v' key' hm hr =>
        hres k' v' key' (List.mem_cons_of_mem _ hm) hr)
      cases hr : refKey "geom" v with
      | none =>
        simp only [resolve_refs, hr, hrest, List.map_cons]
        simp [substVal, hr]
      | some key =>
        have hsome := hres k v key (List.mem_cons_self _ _) hr
        cases ho : alookup materialized key with
        | none => rw [ho] at hsome; simp at hsome
        | some w =>
          simp only [resolve_refs, hr, ho, hrest, List.map_cons]
          simp [substVal, hr, ho]
  · intro kwargs materialized
    induction kwargs with
    | nil =>
      rintro ⟨k, v, key, hm, -, -⟩
      simp at hm
    | cons kv rest ih =>
      rintro ⟨k, v, key, hm, hr, ha⟩
      obtain ⟨k0, v0⟩ := kv
      cases hr0 : refKey "geom" v0 with
      | some key0 =>
        cases ho : alookup materialized key0 with
        | none =>
          cases v0 with
          | str s0 =>
            refine ⟨s0, key0, ?_, ⟨k0, List.mem_cons_self _ _⟩, hr0, ho⟩
            simp only [resolve_refs, hr0, ho]
            rfl
          | num q => simp [refKey] at hr0
          | dict fn ps => simp [refKey] at hr0
        | some w =>
          have hmem : (k, v) ∈ rest := by
            rcases List.mem_cons.mp hm with heq | hmem
            · exfalso
              cases heq
              rw [hr] at hr0
              cases hr0
              rw [ha] at ho
              simp at ho
            · exact hmem
          obtain ⟨s, key', herr, hmem', hr', ha'⟩ := ih ⟨k, v, key, hmem, hr, ha⟩
          refine ⟨s, key', ?_, ?_, hr', ha'⟩
          · simp only [resolve_refs, hr0, ho, herr]
          · obtain ⟨k1, hk1⟩ := hmem'
            exact ⟨k1, List.mem_cons_of_mem _ hk1⟩
      | none =>
        have hmem : (k, v) ∈ rest := by
          rcases List.mem_cons.mp hm with heq | hmem
          · exfalso
            cases heq
            rw [hr] at hr0
            simp at hr0
          · exact hmem
        obtain ⟨s, key', herr, hmem', hr', ha'⟩ := ih ⟨k, v, key, hmem, hr, ha⟩
        refine ⟨s, key', ?_, ?_, hr', ha'⟩
        · simp only [resolve_refs, hr0, herr]
        · obtain ⟨k1, hk1⟩ := hmem'
          exact ⟨k1, List.mem_cons_of_mem _ hk1⟩
  · intro reg materialized key fn params h
    simp only [mat_one, if_neg h]
  · intro gr lr d pl lastOpt geomM e h1 h2
    simp only [build_component, h1, ok_bind, h2, error_bind]

/-- Witness for C7: a loss parameter map holding one `geom` reference and
one plain number, resolved against a materialized `geom` map that has the
referenced key. -/
theorem c7_witness :
    resolve_refs
        [("inlet_area", Val.str "$\x7bgeom.inlet_area\x7d"), ("n", Val.num 3)]
        [("inlet_area", Val.num 7)] "geom" =
      Except.ok
        ([("inlet_area", Val.str "$\x7bgeom.inlet_area\x7d"), ("n", Val.num 3)].map
          (fun kv => (kv.1, substVal [("inlet_area", Val.num 7)] "geom" kv.2))) :=
  c7_loss_reference_resolution.1 _ _ (by
    intro k v key hm hr
    simp only [List.mem_cons, List.not_mem_nil, or_false] at hm
    rcases hm with ⟨rfl, rfl⟩ | ⟨rfl, rfl⟩
    · rw [show refKey "geom" (Val.str "$\x7bgeom.inlet_area\x7d") =
          some "inlet_area" from rfl] at hr
      cases hr
      rfl
    · simp [refKey] at hr)

/-! Helper lemmas for the builder claims. -/

theorem emap_ok {α β : Type} {x : Except PyErr α} {f : α → β} {b : β} :
    x.map f = Except.ok b ↔ ∃ a, x = Except.ok a ∧ f a = b := by
  cases x <;> simp [Except.map]

/-- With the inlet plenum still unset, `build_component` can never succeed:
both constructor branches read `inlet_plenum.mass_flow_rate`, which raises
`AttributeError` on `None`. -/
theorem build_component_no_plenum (gr lr : Registry) (d : Desc)
    (lastOpt : Option Element) (el : Element) :
    build_component gr lr d none lastOpt ≠ Except.ok el := by
  intro h
  simp only [build_component, ebind_ok] at h
  obtain ⟨geomM, -, lossM, -, ra, -, raVal, -, h⟩ := h
  split at h
  · simp only [ebind_ok] at h
    obtain ⟨len, -, fdir, -, hd, -, fric, -, ip, hip, -⟩ := h
    simp [getPlenum] at hip
  · simp only [ebind_ok] at h
    obtain ⟨ip, hip, -⟩ := h
    simp [getPlenum] at hip

/-- C5 (amended): an `inlet` descriptor at a nonzero loop index fails with
the structural-order `IndexError`, and an `outlet` descriptor at an index
other than the last fails with the structural-order `IndexError`; but a
specification whose first descriptor is not an `inlet` merely never
produces a Network (when the first descriptor is a pipe/junction the
failure is a different error — see the counterexample). -/
theorem c5_structural_order :
    (∀ (gr lr : Registry) (n idx : Nat) (d : Desc) (rest : List Desc)
        (acc : List Element) (pl : Option Inlet),
      d.type_ = "inlet" → idx ≠ 0 →
      build_go gr lr n idx (d :: rest) acc pl =
        Except.error (.indexError ("Inlet node should be first, currently " ++ toString idx))) ∧
    (∀ (gr lr : Registry) (n idx : Nat) (d : Desc) (rest : List Desc)
        (acc : List Element) (pl : Option Inlet),
      d.type_ = "outlet" → idx ≠ n - 1 →
      build_go gr lr n idx (d :: rest) acc pl =
        Except.error (.indexError ("Outlet node should be last, currently " ++ toString idx))) ∧
    (∀ (gr lr : Registry) (inputs : Inputs) (d : Desc) (rest : List Desc)
        (net : Network),
      inputs.network = d :: rest → d.type_ ≠ "inlet" →
      build_network gr lr inputs ≠ Except.ok net) := by
  refine ⟨?_, ?_, ?_⟩
  · intro gr lr n idx d rest acc pl ht hi
    simp [build_go, ht, hi]
  · intro gr lr n idx d rest acc pl ht hi
    simp [build_go, ht, hi]
  · intro gr lr inputs d rest net hnet ht h
    unfold build_network at h
    rw [hnet, emap_ok] at h
    obtain ⟨l, hl, -⟩ := h
    by_cases ho : d.type_ = "outlet"
    · by_cases hz : rest.length = 0
      · simp only [build_go, if_neg ht, if_pos ho, List.length_cons, hz] at hl
        simp at hl
      · simp only [build_go, if_neg ht, if_pos ho, List.length_cons] at hl
        rw [if_pos (by omega : (0 : Nat) ≠ rest.length + 1 - 1)] at hl
        cases hl
    · cases hbc : build_component gr lr d none ([] : List Element).getLast? with
      | error e =>
        simp only [build_go, if_neg ht, if_neg ho, hbc] at hl
        cases hl
      | ok el => exact build_component_no_plenum gr lr d _ el hbc

/-- Counterexample to C5 as stated: building from `junctionFirstInputs`
(first descriptor a well-formed junction, not an inlet) fails with an
`AttributeError` on the unset inlet plenum, not with a structural-order
`IndexError`. -/
theorem c5_counterexample :
    build_network emptyRegistry emptyRegistry junctionFirstInputs =
      Except.error (.attributeError "NoneType object has no attribute") := rfl

/-- Witness for C5: an inlet descriptor reached at index 1 raises the
structural-order error, and the junction-first specification never builds
a Network. -/
theorem c5_witness :
    build_go emptyRegistry emptyRegistry 2 1 [sampleInletDesc] [] none =
      Except.error (.indexError ("Inlet node should be first, currently " ++ toString 1)) ∧
    build_go emptyRegistry emptyRegistry 3 0 [sampleOutletDesc] [] none =
      Except.error (.indexError ("Outlet node should be last, currently " ++ toString 0)) ∧
    build_network emptyRegistry emptyRegistry junctionFirstInputs ≠
      Except.ok ⟨"net", []⟩ :=
  ⟨c5_structural_order.1 emptyRegistry emptyRegistry 2 1 sampleInletDesc [] [] none
      rfl (by omega),
   c5_structural_order.2.1 emptyRegistry emptyRegistry 3 0 sampleOutletDesc [] [] none
      rfl (by omega),
   c5_structural_order.2.2 emptyRegistry emptyRegistry junctionFirstInputs
      sampleJunctionDesc [] ⟨"net", []⟩ rfl (by decide)⟩

/-! Helper lemmas for the chain invariant. -/

/-- A successfully computed Pipe copied its inlet pressure from the
upstream outlet pressure. -/
theorem pipe_compute_inlet_pressure {p : Pipe} {c : PipeComputed}
    (h : Pipe.compute p = Except.ok c) : p.upstream = some c.inlet_pressure := by
  cases hu : p.upstream with
  | none => simp [Pipe.compute, hu] at h
  | some up =>
    simp only [Pipe.compute, hu] at h
    repeat' split at h
    all_goals simp at h
    subst h
    rfl

/-- A successfully computed Junction copied its inlet pressure from the
upstream outlet pressure. -/
theorem junction_compute_inlet_pressure {j : Junction} {c : JunctionComputed}
    (h : Junction.compute j = Except.ok c) : j.upstream = some c.inlet_pressure := by
  cases hu : j.upstream with
  | none => simp [Junction.compute, hu] at h
  | some up =>
    simp only [Junction.compute, hu] at h
    split at h
    · exact absurd h (by simp)
    · cases h
      rfl

/-- A successfully built component was linked to `network_list[-1]`: its
inlet pressure is exactly the outlet pressure of that last element. -/
theorem build_component_link {gr lr : Registry} {d : Desc} {pl : Option Inlet}
    {lastOpt : Option Element} {el : Element}
    (h : build_component gr lr d pl lastOpt = Except.ok el) :
    ∃ last, lastOpt = some last ∧ el.inlet_pressure = last.outlet_pressure := by
  simp only [build_component, ebind_ok] at h
  obtain ⟨geomM, -, lossM, -, ra, -, raVal, -, h⟩ := h
  split at h
  · simp only [ebind_ok] at h
    obtain ⟨len, -, fdir, -, hd, -, fric, -, ip, -, inA, -, outA, -, raQ, -,
      upEl, hup, pc, hpc, h⟩ := h
    cases lastOpt with
    | none => simp [getLastEl] at hup
    | some last =>
      simp only [getLastEl] at hup
      injection hup with hup2
      subst hup2
      injection h with h2
      subst h2
      have hip := pipe_compute_inlet_pressure hpc
      refine ⟨last, rfl, ?_⟩
      simpa [Element.inlet_pressure] using hip.symm
  · simp only [ebind_ok] at h
    obtain ⟨ip, -, mfr, -, form, -, raQ, -, upEl, hup, jc, hjc, h⟩ := h
    cases lastOpt with
    | none => simp [getLastEl] at hup
    | some last =>
      simp only [getLastEl] at hup
      injection hup with hup2
      subst hup2
      injection h with h2
      subst h2
      have hij := junction_compute_inlet_pressure hjc
      refine ⟨last, rfl, ?_⟩
      simpa [Element.inlet_pressure] using hij.symm

/-- Appending an element that is properly linked to the last element of a
chain preserves the chain invariant. -/
theorem chainAt_append_singleton {l : List Element} {e : Element}
    (hc : chainAt l)
    (he : e.isInterior = true → ∃ last, l.getLast? = some last ∧
      e.inlet_pressure = last.outlet_pressure) :
    chainAt (l ++ [e]) := by
  intro i e1 e2 h1 h2 hint
  by_cases hi : i + 1 < l.length
  · rw [List.getElem?_append_left hi] at h1
    rw [List.getElem?_append_left (by omega)] at h2
    exact hc i e1 e2 h1 h2 hint
  · by_cases hi2 : i + 1 = l.length
    · have h1' : (l ++ [e])[i + 1]? = some e := by
        rw [hi2]
        exact List.getElem?_concat_length l e
      rw [h1'] at h1
      injection h1 with h1e
      subst h1e
      obtain ⟨last, hlast, heq⟩ := he hint
      rw [List.getLast?_eq_getElem?] at hlast
      rw [List.getElem?_append_left (by omega)] at h2
      rw [show i = l.length - 1 by omega] at h2
      rw [h2] at hlast
      injection hlast with h2e
      subst h2e
      exact heq
    · have hnone : (l ++ [e])[i + 1]? = none := by
        apply List.getElem?_eq_none
        simp only [List.length_append, List.length_cons, List.length_nil]
        omega
      rw [hnone] at h1
      cases h1

/-- The builder loop preserves the chain invariant of the accumulated
element list. -/
theorem build_go_chain (gr lr : Registry) (n : Nat) :
    ∀ (ds : List Desc) (idx : Nat) (acc : List Element) (pl : Option Inlet)
      (l : List Element), chainAt acc →
      build_go gr lr n idx ds acc pl = Except.ok l → chainAt l := by
  intro ds
  induction ds with
  | nil =>
    intro idx acc pl l hc h
    simp only [build_go] at h
    cases h
    exact hc
  | cons d rest ih =>
    intro idx acc pl l hc h
    by_cases ht : d.type_ = "inlet"
    · by_cases hi : idx = 0
      · subst hi
        cases hf : d.flow with
        | none =>
          simp only [build_go, if_pos ht, if_neg (show ¬(0 : Nat) ≠ 0 by omega), hf] at h
          exact Except.noConfusion h
        | some f =>
          simp only [build_go, if_pos ht, if_neg (show ¬(0 : Nat) ≠ 0 by omega), hf] at h
          refine ih _ _ _ _ ?_ h
          apply chainAt_append_singleton hc
          intro hint
          simp [Element.isInterior] at hint
      · simp only [build_go, if_pos ht, if_pos hi] at h
        exact Except.noConfusion h
    · by_cases ho : d.type_ = "outlet"
      · by_cases hi : idx = n - 1
        · cases hl : acc.getLast? with
          | none =>
            simp only [build_go, if_neg ht, if_pos ho, if_neg (not_not_intro hi), hl] at h
            exact Except.noConfusion h
          | some lastel =>
            simp only [build_go, if_neg ht, if_pos ho, if_neg (not_not_intro hi), hl] at h
            cases h
            apply chainAt_append_singleton hc
            intro hint
            simp [Element.isInterior] at hint
        · simp only [build_go, if_neg ht, if_pos ho, if_pos hi] at h
          exact Except.noConfusion h
      · cases hbc : build_component gr lr d pl acc.getLast? with
        | error e =>
          simp only [build_go, if_neg ht, if_neg ho, hbc] at h
          exact Except.noConfusion h
        | ok el =>
          simp only [build_go, if_neg ht, if_neg ho, hbc] at h
          refine ih _ _ _ _ ?_ h
          exact chainAt_append_singleton hc (fun _ => build_component_link hbc)

/-- C1: in every Network returned by `build_network`, every interior
element (Pipe or Junction) at position `i + 1` has its inlet pressure
exactly equal to the outlet pressure of the element at position `i` —
each element is constructed with `upstream = network_list[-1]` and copies
`upstream.outlet_pressure`. -/
theorem c1_chain_invariant (gr lr : Registry) (inputs : Inputs) (net : Network)
    (h : build_network gr lr inputs = Except.ok net) :
    ∀ (i : Nat) (e1 e2 : Element), net.network_list[i + 1]? = some e1 →
      net.network_list[i]? = some e2 → e1.isInterior = true →
      e1.inlet_pressure = e2.outlet_pressure := by
  unfold build_network at h
  rw [emap_ok] at h
  obtain ⟨l, hl, hf⟩ := h
  have hchain : chainAt l :=
    build_go_chain gr lr _ _ _ _ _ _ (by intro i e1 e2 h1 h2 hint; simp at h1) hl
  intro i e1 e2 h1 h2 hint
  rw [← hf] at h1 h2
  exact hchain i e1 e2 h1 h2 hint

/-- Witness for C1: in the network built from `sampleInputs`, the junction
at position 1 has inlet pressure equal to the inlet plenum's outlet
pressure. -/
theorem c1_witness :
    (Element.junction ⟨"j1", 1, 1, 2, 1, some 100⟩ ⟨2, 2, 2, 100, 98⟩).inlet_pressure =
      (Element.inlet ⟨"source", 100, 2, 1, 300⟩).outlet_pressure := by
  have s1 : ("junction" : String) ≠ "inlet" := by decide
  have s2 : ("junction" : String) ≠ "outlet" := by decide
  have s3 : ("junction" : String) ≠ "pipe" := by decide
  have s4 : ("outlet" : String) ≠ "inlet" := by decide
  have hb : build_network emptyRegistry emptyRegistry sampleInputs =
      Except.ok sampleNet := by
    norm_num [build_network, sampleInputs, sampleInletDesc, sampleJunctionDesc,
      sampleOutletDesc, build_go, build_component, mat_pass, mat_one, getRefArea,
      getKey, getNum, asNum, getPlenum, getLastEl, alookup, pydiv,
      Junction.compute, emptyRegistry, sampleNet, Element.outlet_pressure,
      List.find?, List.getLast?, List.getLast, s1, s2, s3, s4, ok_bind, error_bind,
      Except.map]
  exact c1_chain_invariant emptyRegistry emptyRegistry sampleInputs sampleNet hb 0
    (Element.junction ⟨"j1", 1, 1, 2, 1, some 100⟩ ⟨2, 2, 2, 100, 98⟩)
    (Element.inlet ⟨"source", 100, 2, 1, 300⟩) (by rfl) (by rfl) rfl

end FlowPy
